import Mathlib

/-!
Verification development for the FinceptTerminal data-access scripts:
the U.S. Treasury FiscalData API wrapper
(`us_treasury_fiscaldata_api.py`) and the CKAN portal test harness
(`test_universal_ckan_api.py`).

The Python code is shallowly embedded: dictionaries become structures
with `Option` fields for keys that are sometimes absent, the single
HTTP call of the request executor becomes an oracle parameter
(`HttpOracle`), Python string operations (`lower`, `in`, `split`,
`replace`, `title`) are re-implemented over `List Char`, and Python's
stable `list.sort(key=..., reverse=True)` becomes `List.mergeSort`
with the corresponding boolean relation.
-/

/-! ## Python string primitives over `List Char` -/

/-- Python `str.lower` (ASCII fragment, which covers all strings the
scripts manipulate). -/
def pyLower (s : String) : String := String.mk (s.data.map Char.toLower)

/-- `startsWithB l p` decides whether `p` is a prefix of `l`. -/
def startsWithB : List Char → List Char → Bool
  | _, [] => true
  | [], _ :: _ => false
  | c :: t, p :: ps => c = p && startsWithB t ps

/-- `containsSub hay needle` decides whether `needle` occurs as a
contiguous substring of `hay` (Python's `needle in hay` on strings). -/
def containsSub : List Char → List Char → Bool
  | hay, needle =>
    startsWithB hay needle ||
      match hay with
      | [] => false
      | _ :: t => containsSub t needle

/-- Python `needle in hay` for strings. -/
def pyContains (hay needle : String) : Bool := containsSub hay.data needle.data

/-- The whitespace characters recognised by Python's argument-free
`str.split` (ASCII fragment). -/
def pyIsSpace (c : Char) : Bool :=
  c = ' ' || c = '\t' || c = '\n' || c = '\r' || c = '\x0b' || c = '\x0c'

/-- Worker for `pySplit`: `acc` holds the current token reversed. -/
def splitWsAux : List Char → List Char → List (List Char)
  | [], acc => if acc.isEmpty then [] else [acc.reverse]
  | c :: t, acc =>
    if pyIsSpace c then
      if acc.isEmpty then splitWsAux t [] else acc.reverse :: splitWsAux t []
    else
      splitWsAux t (c :: acc)

/-- Python `str.split()` (split on whitespace runs, dropping empties). -/
def pySplit (s : String) : List String := (splitWsAux s.data []).map String.mk

/-- Worker for `pySplitOn`. -/
def splitOnCharAux (sep : Char) : List Char → List Char → List (List Char)
  | [], acc => [acc.reverse]
  | c :: t, acc =>
    if c = sep then acc.reverse :: splitOnCharAux sep t []
    else splitOnCharAux sep t (c :: acc)

/-- Python `str.split(sep)` for a one-character separator (keeps empty
pieces, as Python does). -/
def pySplitOn (s : String) (sep : Char) : List String :=
  (splitOnCharAux sep s.data []).map String.mk

/-- Fueled worker for `pyReplace`; the fuel is an upper bound on the
length of the remaining input, so it never runs out on the nonempty
patterns the scripts use. -/
def replAux : Nat → List Char → List Char → List Char → List Char
  | 0, s, _, _ => s
  | _ + 1, [], _, _ => []
  | fuel + 1, c :: t, pat, rep =>
    if startsWithB (c :: t) pat && !pat.isEmpty then
      rep ++ replAux fuel (List.drop pat.length (c :: t)) pat rep
    else
      c :: replAux fuel t pat rep

/-- Python `str.replace` for a nonempty pattern (left-to-right,
non-overlapping). -/
def pyReplace (s pat rep : String) : String :=
  String.mk (replAux s.data.length s.data pat.data rep.data)

/-- Worker for `pyTitle`: `prevAlpha` records whether the previous
character was alphabetic (Python uppercases a letter exactly when the
preceding character is not cased). -/
def titleAux : Bool → List Char → List Char
  | _, [] => []
  | prevAlpha, c :: t =>
    (if c.isAlpha then (if prevAlpha then c.toLower else c.toUpper) else c) ::
      titleAux c.isAlpha t

/-- Python `str.title` (ASCII fragment). -/
def pyTitle (s : String) : String := String.mk (titleAux false s.data)

/-! ## Substring characterisation lemmas -/

/-- `nd` occurs contiguously inside `hay`. -/
def SubOf (nd hay : List Char) : Prop := ∃ pre post, pre ++ nd ++ post = hay

theorem startsWithB_iff (l p : List Char) :
    startsWithB l p = true ↔ ∃ t, p ++ t = l := by
  induction p generalizing l with
  | nil => simp [startsWithB]
  | cons x xs ih =>
    cases l with
    | nil => simp [startsWithB]
    | cons c t =>
      simp only [startsWithB, Bool.and_eq_true, decide_eq_true_eq, ih]
      constructor
      · rintro ⟨rfl, u, rfl⟩
        exact ⟨u, rfl⟩
      · rintro ⟨u, h⟩
        injection h with h1 h2
        exact ⟨h1.symm, u, h2⟩

theorem containsSub_iff (hay nd : List Char) :
    containsSub hay nd = true ↔ SubOf nd hay := by
  induction hay with
  | nil =>
    simp only [containsSub, Bool.or_eq_true, startsWithB_iff, SubOf]
    constructor
    · rintro (⟨t, h⟩ | h)
      · exact ⟨[], t, by simpa using h⟩
      · cases h
    · rintro ⟨pre, post, h⟩
      have hpre : pre = [] := by
        cases pre with
        | nil => rfl
        | cons a b => simp at h
      subst hpre
      exact Or.inl ⟨post, by simpa using h⟩
  | cons c t ih =>
    simp only [containsSub, Bool.or_eq_true, startsWithB_iff, ih, SubOf]
    constructor
    · rintro (⟨u, h⟩ | ⟨pre, post, h⟩)
      · exact ⟨[], u, by simpa using h⟩
      · exact ⟨c :: pre, post, by simp [h]⟩
    · rintro ⟨pre, post, h⟩
      cases pre with
      | nil => exact Or.inl ⟨post, by simpa using h⟩
      | cons a b =>
        injection h with h1 h2
        exact Or.inr ⟨b, post, h2⟩

theorem subOf_trans {a b c : List Char} (h1 : SubOf a b) (h2 : SubOf b c) :
    SubOf a c := by
  obtain ⟨p1, q1, rfl⟩ := h1
  obtain ⟨p2, q2, rfl⟩ := h2
  exact ⟨p2 ++ p1, q1 ++ q2, by simp⟩

/-- Every token produced by the whitespace splitter occurs contiguously
in the splitter's input (prefixed by the pending accumulator). -/
theorem splitWsAux_subOf :
    ∀ (l acc tk : List Char), tk ∈ splitWsAux l acc →
      SubOf tk (acc.reverse ++ l) := by
  intro l
  induction l with
  | nil =>
    intro acc tk h
    simp only [splitWsAux] at h
    cases hacc : acc.isEmpty <;> simp [hacc] at h
    subst h
    exact ⟨[], [], by simp⟩
  | cons c t ih =>
    intro acc tk h
    simp only [splitWsAux] at h
    by_cases hsp : pyIsSpace c = true
    · rw [if_pos hsp] at h
      by_cases hacc : acc.isEmpty = true
      · rw [if_pos hacc] at h
        obtain ⟨pre, post, hh⟩ := ih [] tk h
        refine ⟨acc.reverse ++ c :: pre, post, ?_⟩
        simp only [List.reverse_nil, List.nil_append] at hh
        simp [hh, List.append_assoc]
      · rw [if_neg hacc] at h
        rcases List.mem_cons.mp h with h | h
        · subst h
          exact ⟨[], c :: t, by simp⟩
        · obtain ⟨pre, post, hh⟩ := ih [] tk h
          refine ⟨acc.reverse ++ c :: pre, post, ?_⟩
          simp only [List.reverse_nil, List.nil_append] at hh
          simp [hh, List.append_assoc]
    · rw [if_neg hsp] at h
      have := ih (c :: acc) tk h
      simpa using this

theorem pySplit_subOf {s w : String} (h : w ∈ pySplit s) :
    SubOf w.data s.data := by
  simp only [pySplit, List.mem_map] at h
  obtain ⟨tk, htk, rfl⟩ := h
  have := splitWsAux_subOf s.data [] tk htk
  simpa using this

/-! ## FiscalData wrapper: data model

`us_treasury_fiscaldata_api.py`.  The metadata dictionaries built by
the wrapper use a closed set of keys; `Metadata` has one `Option`
field per key (`none` models an absent key).  Record contents are
opaque to the wrapper, so a record is an association list. -/

/-- `BASE_URL` (configuration section of the script). -/
def BASE_URL : String :=
  "https://api.fiscaldata.treasury.gov/services/api/fiscal_service"

/-- `TIMEOUT = 30`. -/
def TIMEOUT : Nat := 30

/-- `DEFAULT_PAGE_SIZE = 100`. -/
def DEFAULT_PAGE_SIZE : Nat := 100

/-- A data record returned by the remote API: an opaque mapping from
field names to values. -/
abbrev Record := List (String × String)

/-- The query-parameter dictionary sent to the remote API.  A `none`
field models a key that is absent from the dictionary. -/
structure ReqParams where
  pageSize : Option Nat := none
  pageNumber : Option Nat := none
  fields : Option String := none
  requestFilter : Option String := none
  sort : Option String := none
  format : Option String := none
deriving DecidableEq, Repr

/-- The `meta` block of a remote JSON payload; each field models one
of the keys `total-count` / `page-number` / `page-size` /
`total-pages`, absent keys being `none`. -/
structure PageMeta where
  totalCount : Option Nat := none
  pageNumber : Option Nat := none
  pageSize : Option Nat := none
  totalPages : Option Nat := none
deriving DecidableEq, Repr

/-- A successfully parsed remote JSON payload, following the response
shape documented for the FiscalData service:
`{data: [...], meta: {...}}` or `{error: "..."}`.  `apiError` models
the presence of an `error` key. -/
structure ApiPayload where
  apiError : Option String := none
  data : List Record := []
  meta : Option PageMeta := none
deriving DecidableEq, Repr

/-- Outcome of the single `requests.get` call made by `_make_request`,
covering each exception class the script handles. -/
inductive HttpOutcome where
  | httpError (status : Nat) (reason : String)
  | timedOut
  | connFailed
  | badJson
  | unexpectedExc (msg : String)
  | ok (payload : ApiPayload)
deriving DecidableEq, Repr

/-- The network, as seen by the request executor: one response per
(endpoint, final query parameters) pair. -/
def HttpOracle : Type := String → ReqParams → HttpOutcome

/-- The page-info sub-dictionary of a success metadata block. -/
structure PageInfo where
  pageNumber : Nat
  pageSize : Nat
  totalPages : Nat
deriving DecidableEq, Repr

/-- The metadata dictionary of an envelope.  One `Option` field per
key the script ever writes; `lastUpdated` stands for the
`datetime.now().isoformat()` timestamp (its value is irrelevant to
every property below, so it is modelled as a fixed marker). -/
structure Metadata where
  source : String
  lastUpdated : Nat := 0
  action : Option String := none
  endpoint : Option String := none
  params : Option ReqParams := none
  count : Option Nat := none
  totalCount : Option Nat := none
  pageInfo : Option PageInfo := none
  category : Option String := none
  query : Option String := none
  description : Option String := none
  totalTests : Option Nat := none
  successfulTests : Option Nat := none
  failedTests : Option Nat := none
  successRate : Option String := none
deriving DecidableEq, Repr

/-- The uniform `{data, metadata, error}` response envelope. -/
structure Envelope (α : Type) where
  data : α
  metadata : Metadata
  error : Option String
deriving DecidableEq, Repr

/-! ## FiscalData wrapper: request executor -/

/-- The error-branch metadata of `_make_request` (identical in all
five `except` arms). -/
def requestErrMeta (endpoint : String) (p : ReqParams) : Metadata :=
  { source := "us_treasury_fiscaldata", action := some endpoint,
    endpoint := some endpoint, params := some p }

/-- The parameter dictionary `_make_request` actually sends: the
caller's parameters (or `{}`), with the default page size filled in
when absent and `format` forced to `json`. -/
def finalParams (params : Option ReqParams) : ReqParams :=
  let p0 := params.getD {}
  let p1 := if p0.pageSize = none then { p0 with pageSize := some DEFAULT_PAGE_SIZE } else p0
  { p1 with format := some "json" }

/-- `_make_request`: fills in the default page size and the `json`
format, performs the single HTTP call through the oracle, and maps
every failure to an error envelope with empty data. -/
def makeRequest (http : HttpOracle) (endpoint : String)
    (params : Option ReqParams) : Envelope (List Record) :=
  let p := finalParams params
  match http endpoint p with
  | .ok payload =>
    match payload.apiError with
    | some msg =>
      { data := [], metadata := requestErrMeta endpoint p,
        error := some ("API Error: " ++ msg) }
    | none =>
      { data := payload.data,
        metadata :=
          { source := "us_treasury_fiscaldata", action := some endpoint,
            endpoint := some endpoint, params := some p,
            count := some payload.data.length,
            totalCount := some ((payload.meta.bind PageMeta.totalCount).getD 0),
            pageInfo := some
              { pageNumber := (payload.meta.bind PageMeta.pageNumber).getD 1,
                pageSize := (payload.meta.bind PageMeta.pageSize).getD DEFAULT_PAGE_SIZE,
                totalPages := (payload.meta.bind PageMeta.totalPages).getD 1 } },
        error := none }
  | .httpError status reason =>
    { data := [], metadata := requestErrMeta endpoint p,
      error := some ("HTTP Error: " ++ toString status ++ " - " ++ reason) }
  | .timedOut =>
    { data := [], metadata := requestErrMeta endpoint p,
      error := some "Request timeout. API is taking too long to respond." }
  | .connFailed =>
    { data := [], metadata := requestErrMeta endpoint p,
      error := some "Connection error. Unable to connect to API." }
  | .badJson =>
    { data := [], metadata := requestErrMeta endpoint p,
      error := some "Invalid JSON response from API" }
  | .unexpectedExc msg =>
    { data := [], metadata := requestErrMeta endpoint p,
      error := some ("Unexpected error: " ++ msg) }

/-! ## FiscalData wrapper: catalogue registry and Level-1 functions -/

/-- `_get_available_datasets`: the static registry of endpoint paths,
in registration order. -/
def availableDatasets : List String :=
  [ "v2/accounting/od/debt_to_penny",
    "v2/accounting/od/avg_interest_rates",
    "v2/accounting/od/schedules_fed_debt",
    "v2/accounting/od/stmt_debt",
    "v2/accounting/od/stmt_tsy_gov_sec_hldgs",
    "v2/accounting/od/mts",
    "v2/accounting/od/receipts",
    "v2/accounting/od/outlays",
    "v2/accounting/od/deficit",
    "v2/accounting/od/supplemental_monthly_statement",
    "v2/accounting/dts/gs_cfs",
    "v2/accounting/dts/ds_gf",
    "v2/accounting/dts/debt_to_the_penny",
    "v2/accounting/od/avg_maturity_secs",
    "v2/accounting/od/securities",
    "v2/debt/msd/msd_summary",
    "v2/debt/msd/msd_detail",
    "v2/debt/ie/ie_bpd",
    "v2/revenue/rc/collections",
    "v2/revenue/rc/quarterly_collections",
    "v2/revenue/rc/annual_collections",
    "v2/revenue/rc/receipts",
    "v2/revenue/rc/expenditures",
    "v2/expenditures/budget/budget_function",
    "v2/expenditures/budget/budget_subfunction",
    "v2/expenditures/budget/budget_account",
    "v2/expenditures/budget/budget_object_class",
    "v2/expenditures/agency/agency" ]

/-- `dataset.split('/')[1] if len(dataset.split('/')) > 2 else
"unknown"`. -/
def categoryOf (dataset : String) : String :=
  if (pySplitOn dataset '/').length > 2 then (pySplitOn dataset '/').getD 1 ""
  else "unknown"

/-- `dataset.replace('v2/', '').replace('_', ' ').title()`. -/
def displayName (dataset : String) : String :=
  pyTitle (pyReplace (pyReplace dataset "v2/" "") "_" " ")

/-- A catalogue entry built by `get_catalogue` /
`get_datasets_by_category`. -/
structure DatasetInfo where
  endpoint : String
  category : String
  name : String
  path : String
deriving DecidableEq, Repr

/-- `get_catalogue`: pure enumeration of the registry (no network
call; its `except` arm is unreachable because no statement in the
`try` block can raise). -/
def get_catalogue : Envelope (List DatasetInfo) :=
  let datasetInfo := availableDatasets.map fun dataset =>
    { endpoint := dataset, category := categoryOf dataset,
      name := displayName dataset, path := dataset }
  { data := datasetInfo,
    metadata :=
      { source := "us_treasury_fiscaldata", action := some "get_catalogue",
        count := some datasetInfo.length,
        description := some "Available U.S. Treasury FiscalData datasets" },
    error := none }

/-- `get_datasets_by_category`: case-sensitive substring filter
(`category in d`) over the registry; an empty filtered set is reported
through the envelope's `error` field. -/
def get_datasets_by_category (category : String) : Envelope (List DatasetInfo) :=
  let filteredDatasets := availableDatasets.filter fun d => pyContains d category
  if filteredDatasets.isEmpty then
    { data := [],
      metadata :=
        { source := "us_treasury_fiscaldata",
          action := some "get_datasets_by_category", category := some category },
      error := some ("No datasets found for category: " ++ category) }
  else
    let datasetInfo := filteredDatasets.map fun dataset =>
      { endpoint := dataset, category := category,
        name := pyTitle (pyReplace (pyReplace dataset ("v2/" ++ category ++ "/") "") "_" " "),
        path := dataset }
    { data := datasetInfo,
      metadata :=
        { source := "us_treasury_fiscaldata",
          action := some "get_datasets_by_category", category := some category,
          count := some datasetInfo.length },
      error := none }

/-! ## FiscalData wrapper: Level-2 and Level-3 functions -/

/-- Python truthiness of an optional string (`None` and `""` are
falsy). -/
def truthyS : Option String → Bool
  | none => false
  | some s => !s.isEmpty

/-- The parameter dictionary built by `get_dataset_data` before it
delegates to `_make_request` (falsy `fields`/`filter`/`sort` values
are left out of the dictionary). -/
def datasetParams (fields requestFilter sort : Option String)
    (pageSize pageNumber : Nat) : ReqParams :=
  { pageSize := some pageSize, pageNumber := some pageNumber,
    fields := if truthyS fields then fields else none,
    requestFilter := if truthyS requestFilter then requestFilter else none,
    sort := if truthyS sort then sort else none }

/-- `get_dataset_data`. -/
def get_dataset_data (http : HttpOracle) (endpoint : String)
    (fields requestFilter sort : Option String)
    (pageSize : Nat := DEFAULT_PAGE_SIZE) (pageNumber : Nat := 1) :
    Envelope (List Record) :=
  makeRequest http endpoint
    (some (datasetParams fields requestFilter sort pageSize pageNumber))

/-- `get_dataset_summary`: first five records. -/
def get_dataset_summary (http : HttpOracle) (endpoint : String) :
    Envelope (List Record) :=
  get_dataset_data http endpoint none none none 5 1

/-- The date-range filter expression shared verbatim by the four
derived accessors (`start_date`/`end_date` are tested with Python
truthiness). -/
def filterExpr (startDate endDate : Option String) : String :=
  if truthyS startDate && truthyS endDate then
    "record_date:gte:" ++ startDate.getD "" ++ ",record_date:lte:" ++ endDate.getD ""
  else if truthyS startDate then
    "record_date:gte:" ++ startDate.getD ""
  else if truthyS endDate then
    "record_date:lte:" ++ endDate.getD ""
  else
    ""

/-- `get_debt_to_penny`. -/
def get_debt_to_penny (http : HttpOracle)
    (startDate endDate : Option String) : Envelope (List Record) :=
  get_dataset_data http "v2/accounting/od/debt_to_penny"
    (some "record_date,tot_pub_debt_out_amt")
    (some (filterExpr startDate endDate)) (some "-record_date") 500 1

/-- `get_treasury_yield_rates`. -/
def get_treasury_yield_rates (http : HttpOracle)
    (startDate endDate : Option String) : Envelope (List Record) :=
  get_dataset_data http "v2/accounting/od/avg_interest_rates"
    none (some (filterExpr startDate endDate)) (some "-record_date") 500 1

/-- `get_monthly_treasury_statement`. -/
def get_monthly_treasury_statement (http : HttpOracle)
    (startDate endDate : Option String) : Envelope (List Record) :=
  get_dataset_data http "v2/revenue/rc/collections"
    none (some (filterExpr startDate endDate)) (some "-record_date") 500 1

/-- `get_interest_expense`. -/
def get_interest_expense (http : HttpOracle)
    (startDate endDate : Option String) : Envelope (List Record) :=
  get_dataset_data http "v2/debt/ie/ie_bpd"
    none (some (filterExpr startDate endDate)) (some "-record_date") 500 1

/-! ## FiscalData wrapper: search and endpoint tests -/

/-- A search hit: a catalogue entry together with its `match_score`. -/
structure SearchInfo where
  endpoint : String
  category : String
  name : String
  path : String
  matchScore : Nat
deriving DecidableEq, Repr

/-- `sum(1 for word in query_lower.split() if word in
dataset.lower())`, with `query_lower = query.lower()`. -/
def matchScore (query dataset : String) : Nat :=
  List.countP (fun word => pyContains (pyLower dataset) word)
    (pySplit (pyLower query))

/-- The search hit built for one registry entry. -/
def searchHit (query dataset : String) : SearchInfo :=
  { endpoint := dataset, category := categoryOf dataset,
    name := displayName dataset, path := dataset,
    matchScore := matchScore query dataset }

/-- The registry entries that pass the search gate `query_lower in
dataset.lower()`, in registry order, as search hits. -/
def searchMatches (query : String) : List SearchInfo :=
  (availableDatasets.filter fun dataset =>
      pyContains (pyLower dataset) (pyLower query)).map (searchHit query)

/-- The comparison used by
`matching_datasets.sort(key=lambda x: x['match_score'], reverse=True)`:
Python's stable descending sort keeps `a` before `b` exactly when
`a`'s score is at least `b`'s. -/
def scoreGe (a b : SearchInfo) : Bool := b.matchScore ≤ a.matchScore

/-- `search_datasets` (no network call). -/
def search_datasets (query : String) : Envelope (List SearchInfo) :=
  let matchingDatasets := (searchMatches query).mergeSort scoreGe
  { data := matchingDatasets,
    metadata :=
      { source := "us_treasury_fiscaldata", action := some "search_datasets",
        query := some query, count := some matchingDatasets.length },
    error := none }

/-- One entry of the `test_endpoints` result list. -/
structure TestRec where
  endpoint : String
  status : String
  error : Option String
  dataCount : Nat
deriving DecidableEq, Repr

/-- `"success" if result["error"] is None else "error"`. -/
def statusOf (err : Option String) : String :=
  if err = none then "success" else "error"

/-- One `test_results.append({...})` record. -/
def mkTestRec (name : String) (err : Option String) (count : Nat) : TestRec :=
  { endpoint := name, status := statusOf err, error := err, dataCount := count }

/-- `f"{(success_count/total_count)*100:.1f}%"` for the concrete
ratios `test_endpoints` produces (multiples of one fifth, so no
rounding is involved). -/
def ratePercentStr (succ total : Nat) : String :=
  let tenths := succ * 1000 / total
  toString (tenths / 10) ++ "." ++ toString (tenths % 10) ++ "%"

/-- `test_endpoints`: runs the five fixed probes and summarises them.
Its success metadata carries `total_tests`/`successful_tests`/
`failed_tests`/`success_rate` — and no `count` key. -/
def test_endpoints (http : HttpOracle) : Envelope (List TestRec) :=
  let r1 := get_catalogue
  let r2 := get_debt_to_penny http none none
  let r3 := get_treasury_yield_rates http none none
  let r4 := search_datasets "debt"
  let r5 := get_datasets_by_category "accounting"
  let testResults :=
    [ mkTestRec "get_catalogue" r1.error r1.data.length,
      mkTestRec "get_debt_to_penny" r2.error r2.data.length,
      mkTestRec "get_treasury_yield_rates" r3.error r3.data.length,
      mkTestRec "search_datasets" r4.error r4.data.length,
      mkTestRec "get_datasets_by_category" r5.error r5.data.length ]
  let successCount := testResults.countP fun t => t.status = "success"
  let totalCount := testResults.length
  { data := testResults,
    metadata :=
      { source := "us_treasury_fiscaldata", action := some "test_endpoints",
        totalTests := some totalCount, successfulTests := some successCount,
        failedTests := some (totalCount - successCount),
        successRate := some (ratePercentStr successCount totalCount) },
    error := none }

/-! ## CKAN test harness: data model

`test_universal_ckan_api.py`.  The `universal_ckan_api` client it
imports is an external collaborator; its nine lookup functions are
modelled as an oracle (`CkanOracle`).  Dictionary key accesses on the
client's payloads are modelled with `Option` fields: a `none` field
stands for a missing key, whose access in Python raises `KeyError`
and is absorbed by the surrounding `try`/`except` blocks. -/

/-- Metadata of a CKAN envelope, restricted to the keys the harness
validates. -/
structure CkanMeta where
  source : Option String := none
  country : Option String := none
  lastUpdated : Option Nat := none
  count : Option Nat := none
deriving DecidableEq, Repr

/-- A CKAN `{data, metadata, error}` envelope. -/
structure CkanEnvelope (α : Type) where
  data : α
  metadata : CkanMeta
  error : Option String
deriving DecidableEq, Repr

/-- Python truthiness of the `error` field: `None` and `""` are
falsy. -/
def falsyErr : Option String → Bool
  | none => true
  | some s => s.isEmpty

/-- An organization entry in a `list_organizations` result. -/
structure OrgRec where
  name : Option String := none
deriving DecidableEq, Repr

/-- The `organization` sub-dictionary of a dataset-details payload. -/
structure OrgRef where
  name : Option String := none
deriving DecidableEq, Repr

/-- A dataset entry in a `search_datasets` / `list_datasets`
result. -/
structure CkanDataset where
  name : Option String := none
deriving DecidableEq, Repr

/-- A dataset-details payload (a mapping, accessed as
`data['title']` and `data.get('organization', {}).get('name')`). -/
structure CkanDatasetDetails where
  title : Option String := none
  organization : Option OrgRef := none
deriving DecidableEq, Repr

/-- A resource entry in a `get_dataset_resources` result. -/
structure CkanResource where
  id : Option String := none
deriving DecidableEq, Repr

/-- An organization-details payload (accessed as `data['title']`). -/
structure CkanOrgDetails where
  title : Option String := none
deriving DecidableEq, Repr

/-- A supported-country entry. -/
structure CountryRec where
  code : String
  name : String
deriving DecidableEq, Repr

/-- The `universal_ckan_api` client as seen by the harness: one
envelope per call, deterministic in the call's arguments. -/
structure CkanOracle where
  list_organizations : String → Nat → CkanEnvelope (List OrgRec)
  get_organization_details : String → String → CkanEnvelope CkanOrgDetails
  list_datasets : String → Nat → CkanEnvelope (List CkanDataset)
  search_ckan_datasets : String → String → Nat → CkanEnvelope (List CkanDataset)
  get_dataset_details : String → String → CkanEnvelope CkanDatasetDetails
  get_dataset_resources : String → String → CkanEnvelope (List CkanResource)
  get_resource_details : String → String → CkanEnvelope CkanResource
  get_supported_countries : CkanEnvelope (List CountryRec)
  test_portal_connection : String → CkanEnvelope (List CountryRec)

/-- `ALL_COUNTRIES`. -/
def ALL_COUNTRIES : List String :=
  ["us", "uk", "au", "it", "br", "lv", "si", "uy"]

/-- The acceptance gate of `test_function`: the result must be an
envelope (structural in the embedding), its `error` must be falsy,
and its metadata must contain `source`, `country`, `last_updated`
and `count`. -/
def validEnvelope (e : CkanEnvelope α) : Bool :=
  falsyErr e.error && e.metadata.source.isSome && e.metadata.country.isSome &&
    e.metadata.lastUpdated.isSome && e.metadata.count.isSome

/-- `test_supported_countries` (via `test_function`, which does not
require a `country` metadata key any less for this probe). -/
def test_supported_countries (o : CkanOracle) : Bool :=
  validEnvelope o.get_supported_countries

/-- The countries probed by `test_portal_connections`. -/
def connTestCountries (countries : List String) (fastMode : Bool) : List String :=
  if fastMode then ["us", "uk", "au"] else countries

/-- `test_portal_connections`: the per-country connection results, in
iteration order (the Python `results` dict). -/
def test_portal_connections (o : CkanOracle) (countries : List String)
    (fastMode : Bool) : List (String × Bool) :=
  (connTestCountries countries fastMode).map fun country =>
    (country, validEnvelope (o.test_portal_connection country))

/-- Per-country body of `test_organization_functions`. -/
def orgTestFor (o : CkanOracle) (country : String) : Bool :=
  let success1 := validEnvelope (o.list_organizations country 5)
  let orgDetailsSuccess :=
    if success1 then
      let orgResult := o.list_organizations country 1
      if falsyErr orgResult.error && !orgResult.data.isEmpty then
        match orgResult.data with
        | [] => false
        | r :: _ =>
          match r.name with
          | some orgName => validEnvelope (o.get_organization_details country orgName)
          | none => false
      else false
    else false
  success1 && orgDetailsSuccess

/-- `test_organization_functions`. -/
def test_organization_functions (o : CkanOracle) (countries : List String)
    (fastMode : Bool) : List (String × Bool) :=
  (if fastMode then countries.take 2 else countries).map fun country =>
    (country, orgTestFor o country)

/-- Per-country body of `test_dataset_functions`. -/
def datasetTestFor (o : CkanOracle) (country : String) : Bool :=
  let success1 := validEnvelope (o.list_datasets country 10)
  let success2 := validEnvelope (o.search_ckan_datasets country "climate" 5)
  let detailsSuccess :=
    if success2 then
      let searchResult := o.search_ckan_datasets country "climate" 1
      if falsyErr searchResult.error && !searchResult.data.isEmpty then
        match searchResult.data with
        | [] => false
        | d :: _ =>
          match d.name with
          | some datasetName => validEnvelope (o.get_dataset_details country datasetName)
          | none => false
      else false
    else false
  success1 && success2 && detailsSuccess

/-- `test_dataset_functions`. -/
def test_dataset_functions (o : CkanOracle) (countries : List String)
    (fastMode : Bool) : List (String × Bool) :=
  (if fastMode then countries.take 2 else countries).map fun country =>
    (country, datasetTestFor o country)

/-- The dataset name `test_resource_functions` obtains from its
preliminary search, `None` when the search failed, found nothing, or
the first hit has no `name` key. -/
def resourceProbeName (o : CkanOracle) (country : String) : Option String :=
  let searchResult := o.search_ckan_datasets country "data" 1
  if falsyErr searchResult.error && !searchResult.data.isEmpty then
    match searchResult.data with
    | [] => none
    | d :: _ => d.name
  else none

/-- Per-country body of `test_resource_functions`. -/
def resourceTestFor (o : CkanOracle) (country : String) : Bool :=
  match resourceProbeName o country with
  | none => false
  | some datasetName =>
    if datasetName.isEmpty then false
    else
    let success1 := validEnvelope (o.get_dataset_resources country datasetName)
    let detailsSuccess :=
      if success1 then
        let resourcesResult := o.get_dataset_resources country datasetName
        if falsyErr resourcesResult.error && !resourcesResult.data.isEmpty then
          match resourcesResult.data with
          | [] => false
          | r :: _ =>
            match r.id with
            | some resourceId => validEnvelope (o.get_resource_details country resourceId)
            | none => false
        else false
      else false
    success1 && detailsSuccess

/-- `test_resource_functions`. -/
def test_resource_functions (o : CkanOracle) (countries : List String)
    (fastMode : Bool) : List (String × Bool) :=
  (if fastMode then countries.take 1 else countries).map fun country =>
    (country, resourceTestFor o country)

/-! ## CKAN test harness: integrated workflow -/

/-- The oracle calls the integrated workflow can attempt, in program
order. -/
inductive WfStep where
  | searchStep
  | detailsStep
  | resourcesStep
  | orgStep
deriving DecidableEq, Repr

/-- `test_integrated_workflow`, instrumented with the list of steps
whose oracle call was actually made.  The `countries` argument is
accepted and ignored, as in the source (the workflow always targets
`'us'`).  A missing dictionary key (`['name']`, `['title']`) raises
`KeyError` in Python, which the surrounding `except` turns into an
overall `False`; a missing key therefore maps to `false` here without
attempting further steps. -/
def test_integrated_workflow (o : CkanOracle) (_countries : List String) :
    Bool × List WfStep :=
  let searchResult := o.search_ckan_datasets "us" "climate" 3
  if !falsyErr searchResult.error then (false, [.searchStep])
  else
    match searchResult.data with
    | [] => (false, [.searchStep])
    | d :: _ =>
      match d.name with
      | none => (false, [.searchStep])
      | some datasetName =>
        let detailsResult := o.get_dataset_details "us" datasetName
        if !falsyErr detailsResult.error then (false, [.searchStep, .detailsStep])
        else
          match detailsResult.data.title with
          | none => (false, [.searchStep, .detailsStep])
          | some _ =>
            let resourcesResult := o.get_dataset_resources "us" datasetName
            if !falsyErr resourcesResult.error then
              (false, [.searchStep, .detailsStep, .resourcesStep])
            else
              match detailsResult.data.organization.bind OrgRef.name with
              | none => (true, [.searchStep, .detailsStep, .resourcesStep])
              | some orgName =>
                if orgName.isEmpty then
                  (true, [.searchStep, .detailsStep, .resourcesStep])
                else
                  let orgResult := o.get_organization_details "us" orgName
                  if !falsyErr orgResult.error then
                    (true, [.searchStep, .detailsStep, .resourcesStep, .orgStep])
                  else
                    match orgResult.data.title with
                    | none => (false, [.searchStep, .detailsStep, .resourcesStep, .orgStep])
                    | some _ =>
                      (true, [.searchStep, .detailsStep, .resourcesStep, .orgStep])

/-! ## CKAN test harness: aggregate run and verdict -/

/-- Number of `true` outcomes in a result dict. -/
def countTrue (results : List (String × Bool)) : Nat :=
  results.countP (·.2)

/-- `sum(results.values()) / len(results) * 100` as an exact
rational. -/
def successRateQ (results : List (String × Bool)) : ℚ :=
  (countTrue results : ℚ) / (results.length : ℚ) * 100

/-- A percentage rounded to one decimal place, as printed by the
`:.1f` format (no attainable rate here sits exactly half-way between
two tenths, so the tie-breaking convention is immaterial). -/
def round1 (q : ℚ) : ℚ := (round (q * 10) : ℚ) / 10

/-- The three terminal verdicts of `run_all_tests`. -/
inductive Verdict where
  | fullySuccessful
  | partiallyWorking
  | mostlyFailed
deriving DecidableEq, Repr

/-- Everything `run_all_tests` computes: the per-group result dicts,
the success rates it prints, the workflow outcome, the final verdict
and the returned boolean. -/
structure RunSummary where
  supportedCountriesOk : Bool
  connections : List (String × Bool)
  workingCountries : List String
  organizations : List (String × Bool)
  datasets : List (String × Bool)
  resources : List (String × Bool)
  workflowOk : Bool
  connectionRate : ℚ
  reportedConnectionRate : ℚ
  reportedOrgRate : Option ℚ
  reportedDatasetRate : Option ℚ
  reportedResourceRate : Option ℚ
  verdict : Verdict
  overall : Bool
deriving DecidableEq, Repr

/-- Local `connection_results` of `run_all_tests`. -/
def connectionResultsOf (o : CkanOracle) (countries : List String)
    (fastMode : Bool) : List (String × Bool) :=
  test_portal_connections o countries fastMode

/-- Local `working_countries` of `run_all_tests`: the countries whose
connection test succeeded, in iteration order. -/
def workingCountriesOf (o : CkanOracle) (countries : List String)
    (fastMode : Bool) : List String :=
  ((connectionResultsOf o countries fastMode).filter (·.2)).map (·.1)

/-- Local `test_results['organizations']` of `run_all_tests`:
attempted only over the working countries ( `{}` when none work). -/
def orgResultsOf (o : CkanOracle) (countries : List String)
    (fastMode : Bool) : List (String × Bool) :=
  if !(workingCountriesOf o countries fastMode).isEmpty then
    test_organization_functions o (workingCountriesOf o countries fastMode) fastMode
  else []

/-- Local `test_results['datasets']` of `run_all_tests`. -/
def dsResultsOf (o : CkanOracle) (countries : List String)
    (fastMode : Bool) : List (String × Bool) :=
  if !(workingCountriesOf o countries fastMode).isEmpty then
    test_dataset_functions o (workingCountriesOf o countries fastMode) fastMode
  else []

/-- Local `test_results['resources']` of `run_all_tests`. -/
def resResultsOf (o : CkanOracle) (countries : List String)
    (fastMode : Bool) : List (String × Bool) :=
  if !(workingCountriesOf o countries fastMode).isEmpty then
    test_resource_functions o (workingCountriesOf o countries fastMode) fastMode
  else []

/-- Local `test_results['integrated_workflow']` of `run_all_tests`. -/
def workflowOkOf (o : CkanOracle) (countries : List String)
    (fastMode : Bool) : Bool :=
  if !(workingCountriesOf o countries fastMode).isEmpty then
    (test_integrated_workflow o (workingCountriesOf o countries fastMode)).1
  else false

/-- Local `connection_success_rate` of `run_all_tests` (exact
rational; the Python float would raise `ZeroDivisionError` on an
empty country list, a case the script never produces). -/
def connectionRateOf (o : CkanOracle) (countries : List String)
    (fastMode : Bool) : ℚ :=
  successRateQ (connectionResultsOf o countries fastMode)

/-- The final `if`/`elif`/`else` assessment of `run_all_tests`. -/
def verdictOf (o : CkanOracle) (countries : List String)
    (fastMode : Bool) : Verdict :=
  if connectionRateOf o countries fastMode = 100 ∧
      workflowOkOf o countries fastMode = true then Verdict.fullySuccessful
  else if connectionRateOf o countries fastMode ≥ 50 then Verdict.partiallyWorking
  else Verdict.mostlyFailed

/-- `run_all_tests`. -/
def run_all_tests (o : CkanOracle) (countries : List String)
    (fastMode : Bool) : RunSummary :=
  { supportedCountriesOk := test_supported_countries o,
    connections := connectionResultsOf o countries fastMode,
    workingCountries := workingCountriesOf o countries fastMode,
    organizations := orgResultsOf o countries fastMode,
    datasets := dsResultsOf o countries fastMode,
    resources := resResultsOf o countries fastMode,
    workflowOk := workflowOkOf o countries fastMode,
    connectionRate := connectionRateOf o countries fastMode,
    reportedConnectionRate := round1 (connectionRateOf o countries fastMode),
    reportedOrgRate :=
      if !(workingCountriesOf o countries fastMode).isEmpty then
        some (round1 (successRateQ (orgResultsOf o countries fastMode)))
      else none,
    reportedDatasetRate :=
      if !(workingCountriesOf o countries fastMode).isEmpty then
        some (round1 (successRateQ (dsResultsOf o countries fastMode)))
      else none,
    reportedResourceRate :=
      if !(workingCountriesOf o countries fastMode).isEmpty then
        some (round1 (successRateQ (resResultsOf o countries fastMode)))
      else none,
    verdict := verdictOf o countries fastMode,
    overall := verdictOf o countries fastMode = Verdict.fullySuccessful }

/-- The process exit code of `main`: `sys.exit(0 if success else 1)`. -/
def mainExitCode (o : CkanOracle) (countries : List String)
    (fastMode : Bool) : Nat :=
  if (run_all_tests o countries fastMode).overall then 0 else 1

/-! ## Helper lemmas about the request executor and search -/

/-- The well-formedness contract of a FiscalData envelope: exactly one
of the two states holds — the two disjuncts are mutually exclusive
because `error` cannot be `none` and `some` at once — and on error
the data is empty while the metadata still carries the source and the
action/endpoint identifier.  `data` can never be "null": its type is
a list. -/
def envInvariantFD {α : Type} (e : Envelope (List α)) : Prop :=
  (e.error = none ∧ e.metadata.source = "us_treasury_fiscaldata" ∧
    e.metadata.count.isSome = true) ∨
  (∃ msg, e.error = some msg ∧ e.data = [] ∧
    e.metadata.source = "us_treasury_fiscaldata" ∧
    (e.metadata.action.isSome = true ∨ e.metadata.endpoint.isSome = true))

theorem makeRequest_inv (http : HttpOracle) (endpoint : String)
    (params : Option ReqParams) :
    envInvariantFD (makeRequest http endpoint params) := by
  unfold envInvariantFD makeRequest
  cases h : http endpoint (finalParams params) with
  | ok payload =>
    cases hp : payload.apiError with
    | none => simp [h, hp]
    | some msg => simp [h, hp, requestErrMeta]
  | httpError status reason => simp [h, requestErrMeta]
  | timedOut => simp [h, requestErrMeta]
  | connFailed => simp [h, requestErrMeta]
  | badJson => simp [h, requestErrMeta]
  | unexpectedExc msg => simp [h, requestErrMeta]

theorem makeRequest_count (http : HttpOracle) (endpoint : String)
    (params : Option ReqParams)
    (h : (makeRequest http endpoint params).error = none) :
    (makeRequest http endpoint params).metadata.count =
      some (makeRequest http endpoint params).data.length := by
  unfold makeRequest at *
  cases hh : http endpoint (finalParams params) with
  | ok payload =>
    cases hp : payload.apiError with
    | none => simp [hh, hp]
    | some msg => simp [hh, hp, requestErrMeta] at h
  | httpError status reason => simp [hh, requestErrMeta] at h
  | timedOut => simp [hh, requestErrMeta] at h
  | connFailed => simp [hh, requestErrMeta] at h
  | badJson => simp [hh, requestErrMeta] at h
  | unexpectedExc msg => simp [hh, requestErrMeta] at h

/-- Everything in a search result comes from the gated registry
scan. -/
theorem mem_search_data {q : String} {info : SearchInfo}
    (h : info ∈ (search_datasets q).data) : info ∈ searchMatches q := by
  simp only [search_datasets] at h
  exact (List.mergeSort_perm (searchMatches q) scoreGe).mem_iff.mp h

/-- Shape of a search hit: it is `searchHit q ds` for a registry entry
`ds` that passes the whole-query substring gate. -/
theorem searchMatches_shape {q : String} {info : SearchInfo}
    (h : info ∈ searchMatches q) :
    ∃ ds, ds ∈ availableDatasets ∧
      pyContains (pyLower ds) (pyLower q) = true ∧ info = searchHit q ds := by
  simp only [searchMatches, List.mem_map, List.mem_filter] at h
  obtain ⟨ds, ⟨hmem, hgate⟩, rfl⟩ := h
  exact ⟨ds, hmem, hgate, rfl⟩

/-- Every hit that passes the whole-query gate scores the full token
count: each whitespace token of the query is a substring of the query,
hence of the path. -/
theorem searchMatches_score {q : String} {info : SearchInfo}
    (h : info ∈ searchMatches q) :
    info.matchScore = (pySplit (pyLower q)).length := by
  obtain ⟨ds, _, hgate, rfl⟩ := searchMatches_shape h
  show matchScore q ds = _
  unfold matchScore
  apply List.countP_eq_length.mpr
  intro word hword
  have hsub : SubOf word.data (pyLower q).data := pySplit_subOf hword
  have hq : SubOf (pyLower q).data (pyLower ds).data :=
    (containsSub_iff _ _).mp hgate
  exact (containsSub_iff _ _).mpr (subOf_trans hsub hq)

/-- `scoreGe` is transitive. -/
theorem scoreGe_trans (a b c : SearchInfo) :
    scoreGe a b → scoreGe b c → scoreGe a c := by
  simp only [scoreGe, decide_eq_true_eq]
  omega

/-- `scoreGe` is total. -/
theorem scoreGe_total (a b : SearchInfo) : scoreGe a b || scoreGe b a := by
  simp only [scoreGe, Bool.or_eq_true, decide_eq_true_eq]
  omega

/-- The gated hits are already pairwise `scoreGe`-sorted, because all
their scores are equal. -/
theorem searchMatches_pairwise (q : String) :
    (searchMatches q).Pairwise (scoreGe · ·) := by
  apply List.pairwise_of_forall_mem_list
  intro a ha b hb
  have h1 := searchMatches_score ha
  have h2 := searchMatches_score hb
  simp only [scoreGe, h1, h2, decide_eq_true_eq, le_refl]

/-- The sort in `search_datasets` leaves the gated hits in registry
order. -/
theorem search_data_eq (q : String) :
    (search_datasets q).data = searchMatches q :=
  List.mergeSort_of_sorted (searchMatches_pairwise q)

/-! ## Claim theorems: search, catalogue and filter construction -/

/-- C3.  For every query, `search_datasets` returns its hits sorted in
descending `match_score` order; in fact the result coincides with the
gated registry scan in registration order, which realises the stable
tie-break (every surviving hit carries the same score, namely the full
token count, so the sort is the identity and all ties keep registry
order).  For the query `"debt penny"` every returned endpoint path
contains the token `"debt"` or the token `"penny"` — vacuously, since
the whole-query gate leaves that result empty (see the companion
theorem on the gate). -/
theorem search_sorted_by_match_score :
    (∀ q : String,
      (search_datasets q).data.Pairwise
        (fun a b => b.matchScore ≤ a.matchScore) ∧
      (search_datasets q).data = searchMatches q ∧
      ∀ info ∈ (search_datasets q).data,
        info.matchScore = (pySplit (pyLower q)).length) ∧
    ((search_datasets "debt penny").data.all fun info =>
      pyContains info.path "debt" || pyContains info.path "penny") = true := by
  constructor
  · intro q
    refine ⟨?_, search_data_eq q, ?_⟩
    · have h := List.sorted_mergeSort scoreGe_trans scoreGe_total (searchMatches q)
      have : (search_datasets q).data = (searchMatches q).mergeSort scoreGe := rfl
      rw [this]
      exact h.imp fun hab => by simpa [scoreGe] using hab
    · intro info hinfo
      exact searchMatches_score (mem_search_data hinfo)
  · rw [search_data_eq]
    decide

/-- C10.  `search_datasets` admits a registry entry only when the
entire lowercased query occurs contiguously in the lowercased endpoint
path; consequently the multi-token query `"debt penny"` yields an
empty result even though the single tokens `"debt"` and `"penny"`
individually match 7 and 2 registry paths. -/
theorem search_requires_whole_query_substring :
    (∀ q : String,
      ((search_datasets q).data.all fun info =>
        pyContains (pyLower info.path) (pyLower q)) = true) ∧
    (search_datasets "debt penny").data = [] ∧
    (search_datasets "debt").data.length = 7 ∧
    (search_datasets "penny").data.length = 2 := by
  refine ⟨?_, ?_, ?_, ?_⟩
  · intro q
    apply List.all_eq_true.mpr
    intro info hinfo
    obtain ⟨ds, _, hgate, rfl⟩ := searchMatches_shape (mem_search_data hinfo)
    exact hgate
  · rw [search_data_eq]
    decide
  · rw [search_data_eq]
    decide
  · rw [search_data_eq]
    decide

/-- C5.  Whenever the case-sensitive substring scan of the registry is
empty (as for `"nonexistent_category"`), `get_datasets_by_category`
reports the failure through the envelope: empty data and the
`No datasets found for category` message.  The function is total in
the embedding — no exception escapes. -/
theorem category_filter_empty_error (category : String)
    (h : availableDatasets.filter (fun d => pyContains d category) = []) :
    (get_datasets_by_category category).data = [] ∧
    (get_datasets_by_category category).error =
      some ("No datasets found for category: " ++ category) := by
  unfold get_datasets_by_category
  simp [h]

/-- Witness for C5 at the concrete category of the claim. -/
theorem category_filter_empty_error_witness :
    (get_datasets_by_category "nonexistent_category").data = [] ∧
    (get_datasets_by_category "nonexistent_category").error =
      some ("No datasets found for category: " ++ "nonexistent_category") :=
  category_filter_empty_error "nonexistent_category" (by decide)

/-- C4.  The date-range filter expression built by the derived
accessors, on the four input shapes of the claim, and the omission of
a falsy filter from the parameters handed to the request executor. -/
theorem date_filter_construction :
    filterExpr (some "2024-01-01") none = "record_date:gte:2024-01-01" ∧
    filterExpr none (some "2024-06-01") = "record_date:lte:2024-06-01" ∧
    filterExpr (some "2024-01-01") (some "2024-06-01") =
      "record_date:gte:2024-01-01,record_date:lte:2024-06-01" ∧
    filterExpr none none = "" ∧
    (∀ fields sort ps pn,
      (datasetParams fields (some (filterExpr none none)) sort ps pn).requestFilter
        = none) ∧
    (∀ http : HttpOracle, get_debt_to_penny http none none =
      makeRequest http "v2/accounting/od/debt_to_penny"
        (some { pageSize := some 500, pageNumber := some 1,
                fields := some "record_date,tot_pub_debt_out_amt",
                requestFilter := none, sort := some "-record_date" })) :=
  ⟨rfl, rfl, rfl, rfl, fun _ _ _ _ => rfl, fun _ => rfl⟩

/-- C6.  Each derived accessor is one request-executor call against
its fixed endpoint with its preset (constant) field selection — the
debt series restricts the fields, the other three send no `fields`
key — the preset most-recent-first sort `-record_date`, and page size
500 with page number 1. -/
theorem derived_accessors_preset (http : HttpOracle) (s e : Option String) :
    get_debt_to_penny http s e =
      makeRequest http "v2/accounting/od/debt_to_penny"
        (some (datasetParams (some "record_date,tot_pub_debt_out_amt")
          (some (filterExpr s e)) (some "-record_date") 500 1)) ∧
    get_treasury_yield_rates http s e =
      makeRequest http "v2/accounting/od/avg_interest_rates"
        (some (datasetParams none (some (filterExpr s e)) (some "-record_date") 500 1)) ∧
    get_monthly_treasury_statement http s e =
      makeRequest http "v2/revenue/rc/collections"
        (some (datasetParams none (some (filterExpr s e)) (some "-record_date") 500 1)) ∧
    get_interest_expense http s e =
      makeRequest http "v2/debt/ie/ie_bpd"
        (some (datasetParams none (some (filterExpr s e)) (some "-record_date") 500 1)) ∧
    (datasetParams (some "record_date,tot_pub_debt_out_amt") (some (filterExpr s e))
        (some "-record_date") 500 1).pageSize = some 500 ∧
    (datasetParams none (some (filterExpr s e)) (some "-record_date") 500 1).sort =
      some "-record_date" :=
  ⟨rfl, rfl, rfl, rfl, rfl, rfl⟩

/-! ## Claim theorems: envelope invariants -/

theorem get_catalogue_inv : envInvariantFD get_catalogue :=
  Or.inl ⟨rfl, rfl, rfl⟩

theorem get_datasets_by_category_inv (category : String) :
    envInvariantFD (get_datasets_by_category category) := by
  unfold envInvariantFD get_datasets_by_category
  by_cases h : (availableDatasets.filter fun d => pyContains d category).isEmpty
  · simp [h]
  · simp [h]

theorem search_datasets_inv (query : String) :
    envInvariantFD (search_datasets query) :=
  Or.inl ⟨rfl, rfl, rfl⟩

/-- C1.  Every accessor of the FiscalData wrapper returns a
well-formed envelope: either `error` is `null` and the metadata is
populated (source and record count present), or `error` is a string
and then `data` is the empty sequence while the metadata still
carries the `source` value and an `action`/`endpoint` identifier.
The two states exclude each other because `error : Option String`
cannot be `none` and `some` at once, and `data` is a list by type —
never null. -/
theorem envelope_mutual_exclusion (http : HttpOracle)
    (endpoint category query : String) (params : Option ReqParams)
    (fields rf srt : Option String) (ps pn : Nat) (sd ed : Option String) :
    envInvariantFD (makeRequest http endpoint params) ∧
    envInvariantFD get_catalogue ∧
    envInvariantFD (get_datasets_by_category category) ∧
    envInvariantFD (search_datasets query) ∧
    envInvariantFD (get_dataset_data http endpoint fields rf srt ps pn) ∧
    envInvariantFD (get_dataset_summary http endpoint) ∧
    envInvariantFD (get_debt_to_penny http sd ed) ∧
    envInvariantFD (get_treasury_yield_rates http sd ed) ∧
    envInvariantFD (get_monthly_treasury_statement http sd ed) ∧
    envInvariantFD (get_interest_expense http sd ed) :=
  ⟨makeRequest_inv http endpoint params,
   get_catalogue_inv,
   get_datasets_by_category_inv category,
   search_datasets_inv query,
   makeRequest_inv http endpoint _,
   makeRequest_inv http endpoint _,
   makeRequest_inv http _ _,
   makeRequest_inv http _ _,
   makeRequest_inv http _ _,
   makeRequest_inv http _ _⟩

/-- A plain always-failing network: every request raises
`requests.exceptions.ConnectionError`. -/
def oracleDown : HttpOracle := fun _ _ => .connFailed

/-- A network that answers every request with an empty payload. -/
def oracleEmptyOk : HttpOracle := fun _ _ => .ok {}

/-- Counterexample to C2 as stated: the endpoint test runner
(`test_endpoints`) returns a success envelope (`error` is null) whose
metadata has NO `count` key at all — it carries
`total_tests`/`successful_tests`/`failed_tests`/`success_rate`
instead — so not every success envelope's metadata contains `count`.
The concrete input is any network state; here, one where every HTTP
request fails with a connection error. -/
theorem test_endpoints_metadata_lacks_count :
    (test_endpoints oracleDown).error = none ∧
    (test_endpoints oracleDown).metadata.count = none ∧
    (test_endpoints oracleDown).data.length = 5 :=
  ⟨rfl, rfl, rfl⟩

theorem get_datasets_by_category_count (category : String)
    (h : (get_datasets_by_category category).error = none) :
    (get_datasets_by_category category).metadata.count =
      some (get_datasets_by_category category).data.length := by
  unfold get_datasets_by_category at *
  by_cases hf : (availableDatasets.filter fun d => pyContains d category).isEmpty
  · simp [hf] at h
  · simp [hf]

/-- C2 (amended).  Every success envelope of the request executor, the
catalogue, the category filter, the search and the derived/dataset
accessors carries `metadata.count` equal to the length of `data`; the
endpoint test runner is the exception: its (always-success) envelope
has no `count` key — its `total_tests` key carries the length of its
data instead. -/
theorem success_count_matches_data_amended (http : HttpOracle)
    (endpoint category query : String) (params : Option ReqParams)
    (fields rf srt : Option String) (ps pn : Nat) (sd ed : Option String) :
    ((makeRequest http endpoint params).error = none →
      (makeRequest http endpoint params).metadata.count =
        some (makeRequest http endpoint params).data.length) ∧
    (get_catalogue.error = none →
      get_catalogue.metadata.count = some get_catalogue.data.length) ∧
    ((get_datasets_by_category category).error = none →
      (get_datasets_by_category category).metadata.count =
        some (get_datasets_by_category category).data.length) ∧
    ((search_datasets query).error = none →
      (search_datasets query).metadata.count =
        some (search_datasets query).data.length) ∧
    ((get_dataset_data http endpoint fields rf srt ps pn).error = none →
      (get_dataset_data http endpoint fields rf srt ps pn).metadata.count =
        some (get_dataset_data http endpoint fields rf srt ps pn).data.length) ∧
    ((get_dataset_summary http endpoint).error = none →
      (get_dataset_summary http endpoint).metadata.count =
        some (get_dataset_summary http endpoint).data.length) ∧
    ((get_debt_to_penny http sd ed).error = none →
      (get_debt_to_penny http sd ed).metadata.count =
        some (get_debt_to_penny http sd ed).data.length) ∧
    ((get_treasury_yield_rates http sd ed).error = none →
      (get_treasury_yield_rates http sd ed).metadata.count =
        some (get_treasury_yield_rates http sd ed).data.length) ∧
    ((get_monthly_treasury_statement http sd ed).error = none →
      (get_monthly_treasury_statement http sd ed).metadata.count =
        some (get_monthly_treasury_statement http sd ed).data.length) ∧
    ((get_interest_expense http sd ed).error = none →
      (get_interest_expense http sd ed).metadata.count =
        some (get_interest_expense http sd ed).data.length) ∧
    (test_endpoints http).error = none ∧
    (test_endpoints http).metadata.count = none ∧
    (test_endpoints http).metadata.totalTests =
      some (test_endpoints http).data.length :=
  ⟨makeRequest_count http endpoint params,
   fun _ => rfl,
   get_datasets_by_category_count category,
   fun _ => rfl,
   makeRequest_count http endpoint _,
   makeRequest_count http endpoint _,
   makeRequest_count http _ _,
   makeRequest_count http _ _,
   makeRequest_count http _ _,
   makeRequest_count http _ _,
   rfl, rfl, rfl⟩

/-- Witness for C2's amended theorem: the request-executor and
catalogue components applied at concrete inputs, hypotheses
discharged there. -/
theorem success_count_matches_data_amended_witness :
    (makeRequest oracleEmptyOk "v2/accounting/od/debt_to_penny" none).metadata.count =
      some (makeRequest oracleEmptyOk "v2/accounting/od/debt_to_penny" none).data.length ∧
    get_catalogue.metadata.count = some get_catalogue.data.length :=
  ⟨(success_count_matches_data_amended oracleEmptyOk "v2/accounting/od/debt_to_penny"
      "accounting" "debt" none none none none DEFAULT_PAGE_SIZE 1 none none).1 rfl,
   (success_count_matches_data_amended oracleEmptyOk "v2/accounting/od/debt_to_penny"
      "accounting" "debt" none none none none DEFAULT_PAGE_SIZE 1 none none).2.1 rfl⟩

/-! ## Claim theorems: integrated workflow -/

/-- C7.  The integrated workflow: an empty (or failed) initial search
reports `false` with no later step attempted; a fatal failure of the
details or resources step short-circuits everything after it; and
when search, details and resources succeed, a failure of the
organization sub-step alone — attempted last — still yields overall
success `true`. -/
theorem integrated_workflow_steps (o : CkanOracle) (cs : List String)
    (d : CkanDataset) (ds : List CkanDataset) (nm : String) :
    (falsyErr (o.search_ckan_datasets "us" "climate" 3).error = true →
      (o.search_ckan_datasets "us" "climate" 3).data = [] →
      test_integrated_workflow o cs = (false, [.searchStep])) ∧
    (falsyErr (o.search_ckan_datasets "us" "climate" 3).error = false →
      test_integrated_workflow o cs = (false, [.searchStep])) ∧
    ((o.search_ckan_datasets "us" "climate" 3).data = d :: ds →
     falsyErr (o.search_ckan_datasets "us" "climate" 3).error = true →
     d.name = some nm →
      (falsyErr (o.get_dataset_details "us" nm).error = false →
        test_integrated_workflow o cs = (false, [.searchStep, .detailsStep])) ∧
      (∀ ttl, (o.get_dataset_details "us" nm).data.title = some ttl →
       falsyErr (o.get_dataset_details "us" nm).error = true →
        (falsyErr (o.get_dataset_resources "us" nm).error = false →
          test_integrated_workflow o cs =
            (false, [.searchStep, .detailsStep, .resourcesStep])) ∧
        (falsyErr (o.get_dataset_resources "us" nm).error = true →
          (∀ orgName,
            (o.get_dataset_details "us" nm).data.organization.bind OrgRef.name =
              some orgName →
            orgName.isEmpty = false →
            falsyErr (o.get_organization_details "us" orgName).error = false →
            test_integrated_workflow o cs =
              (true, [.searchStep, .detailsStep, .resourcesStep, .orgStep])) ∧
          ((o.get_dataset_details "us" nm).data.organization.bind OrgRef.name =
              none →
            test_integrated_workflow o cs =
              (true, [.searchStep, .detailsStep, .resourcesStep]))))) := by
  refine ⟨?_, ?_, ?_⟩
  · intro herr hdata
    simp [test_integrated_workflow, herr, hdata]
  · intro herr
    simp [test_integrated_workflow, herr]
  · intro hdata herr hname
    refine ⟨?_, ?_⟩
    · intro hderr
      simp [test_integrated_workflow, herr, hdata, hname, hderr]
    · intro ttl httl hdok
      refine ⟨?_, ?_⟩
      · intro hrerr
        simp [test_integrated_workflow, herr, hdata, hname, httl, hdok, hrerr]
      · intro hrok
        refine ⟨?_, ?_⟩
        · intro orgName horg hone hoerr
          simp [test_integrated_workflow, herr, hdata, hname, httl, hdok, hrok,
            horg, hone, hoerr]
        · intro horg
          simp [test_integrated_workflow, herr, hdata, hname, httl, hdok, hrok,
            horg]

/-- A portal on which the workflow's search/details/resources steps
succeed but the organization-details lookup returns an error
envelope. -/
def wfOracleOrgFails : CkanOracle :=
  { list_organizations := fun _ _ => { data := [], metadata := {}, error := none },
    get_organization_details := fun _ _ =>
      { data := {}, metadata := {}, error := some "Not found" },
    list_datasets := fun _ _ => { data := [], metadata := {}, error := none },
    search_ckan_datasets := fun _ _ _ =>
      { data := [{ name := some "ds1" }], metadata := {}, error := none },
    get_dataset_details := fun _ _ =>
      { data := { title := some "DS One", organization := some { name := some "org1" } },
        metadata := {}, error := none },
    get_dataset_resources := fun _ _ =>
      { data := [{ id := some "r1" }], metadata := {}, error := none },
    get_resource_details := fun _ _ => { data := {}, metadata := {}, error := none },
    get_supported_countries := { data := [], metadata := {}, error := none },
    test_portal_connection := fun _ => { data := [], metadata := {}, error := none } }

/-- A portal whose dataset search succeeds but returns zero hits. -/
def wfOracleNoHits : CkanOracle :=
  { wfOracleOrgFails with
    search_ckan_datasets := fun _ _ _ => { data := [], metadata := {}, error := none } }

/-- Witness for C7: on `wfOracleOrgFails` the workflow attempts all
four steps and reports `true` although the organization sub-step
failed; on `wfOracleNoHits` it reports `false` after the search step
alone. -/
theorem integrated_workflow_steps_witness :
    test_integrated_workflow wfOracleOrgFails [] =
      (true, [.searchStep, .detailsStep, .resourcesStep, .orgStep]) ∧
    test_integrated_workflow wfOracleNoHits [] = (false, [.searchStep]) := by
  constructor
  · exact ((((integrated_workflow_steps wfOracleOrgFails [] ⟨some "ds1"⟩ [] "ds1").2.2
      rfl rfl rfl).2 "DS One" rfl rfl).2 rfl).1 "org1" rfl (by decide) (by decide)
  · exact (integrated_workflow_steps wfOracleNoHits [] ⟨none⟩ [] "x").1 rfl rfl

/-! ## Claim theorems: connection gating and the final verdict -/

/-- The key column of a per-country result dict is the iterated
country list itself. -/
theorem keys_of_map_pairs (f : String → Bool) (l : List String) :
    (l.map fun c => (c, f c)).map Prod.fst = l := by
  induction l with
  | nil => rfl
  | cons x xs ih => simp [ih]

/-- A country whose connection test fails is not among the working
countries. -/
theorem not_mem_workingCountriesOf (o : CkanOracle) (countries : List String)
    (fastMode : Bool) (c : String)
    (hfail : validEnvelope (o.test_portal_connection c) = false) :
    c ∉ workingCountriesOf o countries fastMode := by
  intro hmem
  unfold workingCountriesOf connectionResultsOf test_portal_connections at hmem
  simp only [List.mem_map, List.mem_filter] at hmem
  obtain ⟨p, ⟨hp, hsnd⟩, hfst⟩ := hmem
  obtain ⟨x, _, rfl⟩ := hp
  simp only at hfst hsnd
  rw [hfst] at hsnd
  rw [hfail] at hsnd
  exact Bool.false_ne_true hsnd

theorem org_group_keys (o : CkanOracle) (l : List String) (fastMode : Bool) :
    (test_organization_functions o l fastMode).map Prod.fst =
      if fastMode then l.take 2 else l :=
  keys_of_map_pairs _ _

theorem ds_group_keys (o : CkanOracle) (l : List String) (fastMode : Bool) :
    (test_dataset_functions o l fastMode).map Prod.fst =
      if fastMode then l.take 2 else l :=
  keys_of_map_pairs _ _

theorem res_group_keys (o : CkanOracle) (l : List String) (fastMode : Bool) :
    (test_resource_functions o l fastMode).map Prod.fst =
      if fastMode then l.take 1 else l :=
  keys_of_map_pairs _ _

/-- C8.  A country whose connection test fails is excluded from the
working-country list, and hence never appears among the keys of the
organization, dataset or resource result dicts — those groups are
never attempted for it, and since each group's success-rate
denominator is the length of its key list, the country is absent from
every such denominator (skipped, not counted as failed). -/
theorem connection_failure_gates_groups (o : CkanOracle)
    (countries : List String) (fastMode : Bool) (c : String)
    (hfail : validEnvelope (o.test_portal_connection c) = false) :
    c ∉ (run_all_tests o countries fastMode).workingCountries ∧
    c ∉ (run_all_tests o countries fastMode).organizations.map Prod.fst ∧
    c ∉ (run_all_tests o countries fastMode).datasets.map Prod.fst ∧
    c ∉ (run_all_tests o countries fastMode).resources.map Prod.fst := by
  have hw : c ∉ workingCountriesOf o countries fastMode :=
    not_mem_workingCountriesOf o countries fastMode c hfail
  refine ⟨hw, ?_, ?_, ?_⟩
  · show c ∉ (orgResultsOf o countries fastMode).map Prod.fst
    unfold orgResultsOf
    split
    · rw [org_group_keys]
      intro hmem
      cases fastMode with
      | true => exact hw (List.mem_of_mem_take (by simpa using hmem))
      | false => exact hw (by simpa using hmem)
    · simp
  · show c ∉ (dsResultsOf o countries fastMode).map Prod.fst
    unfold dsResultsOf
    split
    · rw [ds_group_keys]
      intro hmem
      cases fastMode with
      | true => exact hw (List.mem_of_mem_take (by simpa using hmem))
      | false => exact hw (by simpa using hmem)
    · simp
  · show c ∉ (resResultsOf o countries fastMode).map Prod.fst
    unfold resResultsOf
    split
    · rw [res_group_keys]
      intro hmem
      cases fastMode with
      | true => exact hw (List.mem_of_mem_take (by simpa using hmem))
      | false => exact hw (by simpa using hmem)
    · simp

/-- Witness for C8: on a portal whose connection envelopes carry no
metadata, every connection test fails, and `"us"` reaches no group
and no denominator. -/
theorem connection_failure_gates_groups_witness :
    "us" ∉ (run_all_tests wfOracleOrgFails ALL_COUNTRIES false).workingCountries ∧
    "us" ∉ (run_all_tests wfOracleOrgFails ALL_COUNTRIES false).organizations.map Prod.fst ∧
    "us" ∉ (run_all_tests wfOracleOrgFails ALL_COUNTRIES false).datasets.map Prod.fst ∧
    "us" ∉ (run_all_tests wfOracleOrgFails ALL_COUNTRIES false).resources.map Prod.fst :=
  connection_failure_gates_groups wfOracleOrgFails ALL_COUNTRIES false "us" (by decide)

/-- C9.  The final assessment: per-category success rates are
`successes / attempts * 100` with the printed value rounded to one
decimal place; the run is fully successful exactly when the
connection rate is 100% and the integrated workflow succeeded,
partially successful exactly when that fails but the connection rate
is at least 50%, and mostly failed otherwise; the process exit code
is 0 exactly for a fully successful run. -/
theorem overall_verdict_and_exit_code (o : CkanOracle)
    (countries : List String) (fastMode : Bool) :
    ((run_all_tests o countries fastMode).verdict = Verdict.fullySuccessful ↔
      ((run_all_tests o countries fastMode).connectionRate = 100 ∧
       (run_all_tests o countries fastMode).workflowOk = true)) ∧
    ((run_all_tests o countries fastMode).verdict = Verdict.partiallyWorking ↔
      (¬((run_all_tests o countries fastMode).connectionRate = 100 ∧
         (run_all_tests o countries fastMode).workflowOk = true) ∧
       50 ≤ (run_all_tests o countries fastMode).connectionRate)) ∧
    ((run_all_tests o countries fastMode).verdict = Verdict.mostlyFailed ↔
      (¬((run_all_tests o countries fastMode).connectionRate = 100 ∧
         (run_all_tests o countries fastMode).workflowOk = true) ∧
       ¬(50 ≤ (run_all_tests o countries fastMode).connectionRate))) ∧
    ((run_all_tests o countries fastMode).overall = true ↔
      (run_all_tests o countries fastMode).verdict = Verdict.fullySuccessful) ∧
    (mainExitCode o countries fastMode = 0 ↔
      (run_all_tests o countries fastMode).verdict = Verdict.fullySuccessful) ∧
    ((run_all_tests o countries fastMode).connectionRate =
      (countTrue (run_all_tests o countries fastMode).connections : ℚ) /
        ((run_all_tests o countries fastMode).connections.length : ℚ) * 100) ∧
    ((run_all_tests o countries fastMode).reportedConnectionRate =
      round1 (run_all_tests o countries fastMode).connectionRate) ∧
    ((run_all_tests o countries fastMode).reportedOrgRate =
      if !(run_all_tests o countries fastMode).workingCountries.isEmpty then
        some (round1 (successRateQ (run_all_tests o countries fastMode).organizations))
      else none) ∧
    ((run_all_tests o countries fastMode).reportedDatasetRate =
      if !(run_all_tests o countries fastMode).workingCountries.isEmpty then
        some (round1 (successRateQ (run_all_tests o countries fastMode).datasets))
      else none) ∧
    ((run_all_tests o countries fastMode).reportedResourceRate =
      if !(run_all_tests o countries fastMode).workingCountries.isEmpty then
        some (round1 (successRateQ (run_all_tests o countries fastMode).resources))
      else none) := by
  refine ⟨?_, ?_, ?_, ?_, ?_, rfl, rfl, rfl, rfl, rfl⟩ <;>
    simp only [mainExitCode, run_all_tests, verdictOf] <;>
    by_cases h1 : connectionRateOf o countries fastMode = 100 ∧
      workflowOkOf o countries fastMode = true <;>
    by_cases h2 : (50 : ℚ) ≤ connectionRateOf o countries fastMode <;>
    simp [h1, h2]

/-- Witness for C3: the score characterisation applied to a concrete
member of a concrete search result. -/
theorem search_sorted_by_match_score_witness :
    (searchHit "debt" "v2/accounting/od/debt_to_penny").matchScore =
      (pySplit (pyLower "debt")).length :=
  (search_sorted_by_match_score.1 "debt").2.2
    (searchHit "debt" "v2/accounting/od/debt_to_penny")
    (by rw [search_data_eq]; decide)
